import Mathlib

/-!
Verification of the `pr` command-line tool (src/main.py), a pipeline that
reads git metadata, composes a prompt, calls a chat-completion service and
prints the reply.  External effects (subprocess execution, environment
variables, the network call) are modelled as explicit function parameters;
everything else is translated directly from the source.
-/

namespace PrTool

/-- The transient value object returned by `get_git_info`
(a Python dict with keys branch_name / commit_logs / code_diff). -/
structure GitInfo where
  branch_name : String
  commit_logs : String
  code_diff : String
deriving DecidableEq, Repr

/-- Outcome of one `subprocess.run([...], capture_output=True, text=True,
check=True)` call: normal exit with captured stdout, a non-zero exit
(raising `CalledProcessError` with captured stderr), or the executable
missing from the path (raising `FileNotFoundError`). -/
inductive SubprocResult where
  | ok (stdout : String)
  | fail (stderr : String)
  | notFound
deriving DecidableEq, Repr

/-- The Python `str.strip()` whitespace set, i.e. the characters for
which `str.isspace()` holds: 0x09-0x0D, 0x1C-0x1F, space, 0x85 (NEL),
0xA0 (NBSP), 0x1680, 0x2000-0x200A, U+2028, U+2029, 0x202F, 0x205F,
0x3000. -/
def isPySpace (c : Char) : Bool :=
  (0x09 ≤ c.toNat && c.toNat ≤ 0x0d) ||
  (0x1c ≤ c.toNat && c.toNat ≤ 0x1f) ||
  c.toNat == 0x20 || c.toNat == 0x85 || c.toNat == 0xa0 ||
  c.toNat == 0x1680 ||
  (0x2000 ≤ c.toNat && c.toNat ≤ 0x200a) ||
  c.toNat == 0x2028 || c.toNat == 0x2029 ||
  c.toNat == 0x202f || c.toNat == 0x205f || c.toNat == 0x3000

/-- Python `str.strip()`: drop leading and trailing whitespace. -/
def pyStrip (s : String) : String :=
  String.mk (((s.data.dropWhile isPySpace).reverse.dropWhile isPySpace).reverse)

/-- The Python `str.splitlines()` line boundaries: 0x0A (LF), 0x0B (VT),
0x0C (FF), 0x0D (CR), 0x1C-0x1E (FS/GS/RS), 0x85 (NEL), U+2028, U+2029;
a CR immediately followed by LF counts as a single boundary. -/
def isPyLineBoundary (c : Char) : Bool :=
  (0x0a ≤ c.toNat && c.toNat ≤ 0x0d) ||
  (0x1c ≤ c.toNat && c.toNat ≤ 0x1e) ||
  c.toNat == 0x85 || c.toNat == 0x2028 || c.toNat == 0x2029

/-- Helper for `pySplitlines`: walk the characters, cutting at each line
boundary (with `\r\n` consumed as one boundary); a trailing boundary
does not open a final empty segment. -/
def splitlinesAux : List Char → List Char → List (List Char)
  | [], acc => if acc = [] then [] else [acc.reverse]
  | '\r' :: '\n' :: rest, acc => acc.reverse :: splitlinesAux rest []
  | c :: rest, acc =>
    if isPyLineBoundary c then acc.reverse :: splitlinesAux rest []
    else splitlinesAux rest (c :: acc)

/-- Python `str.splitlines()`: split at every line boundary of
`isPyLineBoundary` (treating `\r\n` as one boundary); `""` gives `[]`,
and a trailing boundary does not add an empty entry. -/
def pySplitlines (s : String) : List String :=
  (splitlinesAux s.data []).map (fun l => String.mk l)

/-- `['git', 'rev-parse', '--abbrev-ref', 'HEAD']` (src/main.py line 15). -/
def revParseCmd : List String :=
  ["git", "rev-parse", "--abbrev-ref", "HEAD"]

/-- `['git', 'log', f'{base_branch}..HEAD', '--oneline',
'--pretty=format:%s']` (src/main.py line 21). -/
def logCmd (base_branch : String) : List String :=
  ["git", "log", base_branch ++ "..HEAD", "--oneline", "--pretty=format:%s"]

/-- `['git', 'diff', f'{base_branch}...HEAD']` (src/main.py line 27). -/
def diffCmd (base_branch : String) : List String :=
  ["git", "diff", base_branch ++ "...HEAD"]

/-- Message printed on `subprocess.CalledProcessError` (src/main.py line 37). -/
def gitCmdErrorMsg (stderr : String) : String :=
  "Git 명령어 실행 중 오류가 발생했습니다: " ++ stderr

/-- Message printed on `FileNotFoundError` (src/main.py line 40). -/
def gitNotFoundMsg : String :=
  "Git이 설치되어 있지 않거나 경로에 없습니다. Git을 설치해주세요."

/-- Result of one `get_git_info` run: the returned value (`none` models the
Python `return None` on the two except paths), the lines it printed, and
the subprocess commands it invoked, in order. -/
structure GitRunResult where
  info : Option GitInfo
  printed : List String
  invoked : List (List String)
deriving DecidableEq, Repr

/-- `get_git_info` (src/main.py lines 10-41): three `subprocess.run` calls
with `check=True`, short-circuiting to an except branch on the first
failure.  `run` models the subprocess layer.  The first two stdouts are
`.strip()`-ed, the diff is taken verbatim (`.stdout` with no strip). -/
def get_git_info (base_branch : String) (run : List String → SubprocResult) :
    GitRunResult :=
  match run revParseCmd with
  | .fail e => ⟨none, [gitCmdErrorMsg e], [revParseCmd]⟩
  | .notFound => ⟨none, [gitNotFoundMsg], [revParseCmd]⟩
  | .ok out1 =>
    match run (logCmd base_branch) with
    | .fail e => ⟨none, [gitCmdErrorMsg e], [revParseCmd, logCmd base_branch]⟩
    | .notFound => ⟨none, [gitNotFoundMsg], [revParseCmd, logCmd base_branch]⟩
    | .ok out2 =>
      match run (diffCmd base_branch) with
      | .fail e =>
        ⟨none, [gitCmdErrorMsg e],
         [revParseCmd, logCmd base_branch, diffCmd base_branch]⟩
      | .notFound =>
        ⟨none, [gitNotFoundMsg],
         [revParseCmd, logCmd base_branch, diffCmd base_branch]⟩
      | .ok out3 =>
        ⟨some ⟨pyStrip out1, pyStrip out2, out3⟩, [],
         [revParseCmd, logCmd base_branch, diffCmd base_branch]⟩

/-- The environment variable read by `os.getenv` (src/main.py line 46). -/
def apiKeyVar : String := "OPENAI_API_KEY"

/-- String returned when the credential is falsy (src/main.py line 48). -/
def missingKeyMsg : String :=
  "오류: GEMINI_API_KEY가 설정되지 않았습니다. .env 파일을 확인해주세요."

/-- The fixed model identifier passed to the completion endpoint
(src/main.py line 87). -/
def modelId : String := "gpt-4.1-mini"

/-- String returned from the broad `except Exception` handler
(src/main.py line 90); `e` is the stringified exception. -/
def apiErrorMsg (e : String) : String :=
  "Gemini API 호출 중 오류가 발생했습니다: " ++ e

/-- Python truthiness of `os.getenv`: `None` and `""` are falsy
(the `if not api_key:` guard, src/main.py line 47). -/
def pyTruthy : Option String → Bool
  | none => false
  | some s => !(s == "")

/-! The f-string template of src/main.py lines 53-84, written as the
concatenation of its literal segments around the three interpolation
points; the segments are additionally cut at the three `###` section
headers.  Concatenating the pieces in order reproduces the Python
literal character for character (8-space indentation, blank lines, and
the trailing `\n    ` before the closing quotes included). -/

/-- Template up to the first section header. -/
def promptIntro : String :=
  "\n        당신은 뛰어난 개발자로, Git 변경사항을 보고 명확하고 간결한 GitHub Pull Request 메시지를 한국어로 작성하는 전문가입니다.\n\n        아래 제공되는 브랜치 이름, 커밋 로그, 그리고 코드 변경사항(diff)을 바탕으로 다음 형식에 맞춰 PR 메시지를 생성해주세요.\n\n        **형식:**\n        "

/-- The title section header. -/
def headerTitle : String := "### 제목"

/-- Template between the title and description headers. -/
def promptAfterTitle : String :=
  "\n        [기능/수정] 한 줄로 핵심 변경 내용 요약\n\n        "

/-- The description section header. -/
def headerDescription : String := "### 설명"

/-- Template between the description and key-changes headers. -/
def promptAfterDescription : String :=
  "\n        - 이 PR이 필요한 이유와 배경을 설명해주세요.\n        - 어떤 문제를 해결하는지 작성해주세요.\n\n        "

/-- The key-changes section header. -/
def headerKeyChanges : String := "### 주요 변경 사항"

/-- Template between the key-changes header and the branch-name
interpolation. -/
def promptBeforeBranch : String :=
  "\n        - 코드 변경 사항을 구체적인 항목으로 나눠서 요약해주세요.\n\n        ---\n\n        **[입력 정보]**\n        **브랜치 이름:**\n        "

/-- Template between the branch-name and commit-log interpolations. -/
def promptBeforeLogs : String :=
  "\n\n        **커밋 로그:**\n        ```\n        "

/-- Template between the commit-log and diff interpolations. -/
def promptBeforeDiff : String :=
  "\n        ```\n\n        **코드 변경 사항(diff):**\n        ```diff\n        "

/-- Template after the diff interpolation. -/
def promptSuffix : String := "\n        ```\n    "

/-- The composed prompt: pure string interpolation of the three `GitInfo`
fields into the fixed template (src/main.py lines 53-84). -/
def composePrompt (gi : GitInfo) : String :=
  promptIntro ++ headerTitle ++ promptAfterTitle ++ headerDescription ++
  promptAfterDescription ++ headerKeyChanges ++ promptBeforeBranch ++
  gi.branch_name ++ promptBeforeLogs ++ gi.commit_logs ++
  promptBeforeDiff ++ gi.code_diff ++ promptSuffix

/-- Result of `generate_pr_message`: the returned string and how many
chat-completion requests were issued. -/
structure GenResult where
  message : String
  apiCalls : Nat
deriving DecidableEq, Repr

/-- `generate_pr_message` (src/main.py lines 44-90).  `osEnv` models
`os.getenv`; `call` models one `client.chat.completions.create`
request/extract, with `.error e` standing for any exception raised by the
call or the response extraction (caught by the broad `except Exception`). -/
def generate_pr_message (gi : GitInfo) (osEnv : String → Option String)
    (call : String → Except String String) : GenResult :=
  let api_key := osEnv apiKeyVar
  if pyTruthy api_key = false then
    ⟨missingKeyMsg, 0⟩
  else
    match call (composePrompt gi) with
    | .ok content => ⟨content, 1⟩
    | .error e => ⟨apiErrorMsg e, 1⟩

/-- A one-character string holding the ASCII single-quote (39), used by
the banner line of the driver. -/
def quoteStr : String := String.singleton (Char.ofNat 39)

/-- `f"✅ 기준 브랜치: '{BASE_BRANCH}'"` (src/main.py line 110). -/
def bannerLine (b : String) : String :=
  "✅ 기준 브랜치: " ++ quoteStr ++ b ++ quoteStr

/-- Progress line before gathering git info (src/main.py line 112). -/
def collectMsg : String := "Git 정보를 수집 중입니다..."

/-- `f"브랜치: {git_info['branch_name']}"` (src/main.py line 117). -/
def branchLine (b : String) : String := "브랜치: " ++ b

/-- `len(git_info['commit_logs'].splitlines())` (src/main.py line 118). -/
def commitCount (logs : String) : Nat := (pySplitlines logs).length

/-- `f"커밋 수: {len(git_info['commit_logs'].splitlines())}개"`
(src/main.py line 118). -/
def commitCountLine (logs : String) : String :=
  "커밋 수: " ++ toString (commitCount logs) ++ "개"

/-- Progress line before the API call (src/main.py line 119). -/
def apiAnnounceMsg : String := "\nOPENAI API를 통해 PR 메시지를 생성합니다..."

/-- `"="*50` (src/main.py lines 123-127). -/
def sepLine : String := String.mk (List.replicate 50 '=')

/-- Banner above the generated message (src/main.py line 124). -/
def resultBanner : String := "✨ 생성된 PR 메시지 ✨"

/-- argparse's negative-number matcher `^-\d+$|^-\d*\.\d+$`: such tokens
are treated as positionals because this parser defines no
numeric-looking options. -/
def looksLikeNegNum (s : String) : Bool :=
  match s.data with
  | '-' :: rest =>
    match rest.dropWhile Char.isDigit with
    | [] => !(rest.takeWhile Char.isDigit).isEmpty
    | '.' :: frac => !frac.isEmpty && frac.all Char.isDigit
    | _ => false
  | _ => false

/-- A token argparse treats as an option rather than a positional: it
starts with the prefix character `-`, has at least two characters, and
does not look like a negative number.  The bare `-` and tokens such as
`-1` are positionals. -/
def isOptionLike (t : String) : Bool :=
  match t.data with
  | '-' :: _ :: _ => !looksLikeNegNum t
  | _ => false

/-- Split an argument list at the first `--` pseudo-argument: the
separator is consumed, and everything after it is positional. -/
def splitAtDashDash : List String → List String × List String
  | [] => ([], [])
  | a :: rest =>
    if a = "--" then ([], rest)
    else (a :: (splitAtDashDash rest).1, (splitAtDashDash rest).2)

/-- The argparse surface (src/main.py lines 95-108): one optional
positional `base_branch` with default `'main'`; no flags or subcommands
are defined.  Faithful to argparse token handling: the first `--` is a
consumed separator after which every token is positional; before it, an
option-like token (dash-prefixed, length at least two, not
negative-number-like — `isOptionLike`) triggers `-h` help or an
unrecognized-argument error, while `-` and negative-number-like tokens
such as `-1` are positionals.  Zero positionals give the default
`'main'`, one gives that token, and two or more are an error.  Help and
error paths terminate the process without a normal run, modelled as
`none`. -/
def parseBaseBranch (argv : List String) : Option String :=
  let pr := splitAtDashDash argv
  if pr.1.any isOptionLike then none
  else
    match pr.1 ++ pr.2 with
    | [] => some "main"
    | [b] => some b
    | _ => none

/-- Observable outcome of one run of the `__main__` block: lines printed
to stdout, subprocess commands invoked, chat-completion requests made,
and the process exit code. -/
structure MainResult where
  printed : List String
  invoked : List (List String)
  apiCalls : Nat
  exitCode : Nat
deriving DecidableEq, Repr

/-- The `__main__` block (src/main.py lines 93-127): parse the argument,
print the banner and progress line, run `get_git_info`, and only `if
git_info:` (truthy, i.e. not `None`) print the summary, call
`generate_pr_message` and print the framed result.  No path sets a
non-zero exit code, so `exitCode` is 0 on every completed run;
`none` models argparse terminating the process during parsing. -/
def pr_main (argv : List String) (run : List String → SubprocResult)
    (osEnv : String → Option String) (call : String → Except String String) :
    Option MainResult :=
  match parseBaseBranch argv with
  | none => none
  | some base =>
    let g := get_git_info base run
    match g.info with
    | none => some ⟨[bannerLine base, collectMsg] ++ g.printed, g.invoked, 0, 0⟩
    | some gi =>
      let gen := generate_pr_message gi osEnv call
      some ⟨[bannerLine base, collectMsg] ++ g.printed ++
              [branchLine gi.branch_name, commitCountLine gi.commit_logs,
               apiAnnounceMsg, "\n" ++ sepLine, resultBanner, sepLine,
               gen.message, sepLine],
            g.invoked, gen.apiCalls, 0⟩

/-- `t` occurs verbatim as a substring of `s`. -/
def containsStr (s t : String) : Prop := t.data <:+: s.data

/-- A recognizable missing-credential marker inside `missingKeyMsg`
(Korean for "is not set"). -/
def missingKeyMarker : String := "설정되지 않았습니다"

/-- A recognizable call-failed marker inside `apiErrorMsg` (Korean for
"an error occurred during the API call"). -/
def callFailedMarker : String := "API 호출 중 오류가 발생했습니다"

/-- The specification's independent reading of the number of
newline-separated entries of a string: an empty string has 0 entries, and
otherwise `n` newline separators delimit `n + 1` entries. -/
def newlineEntryCount (s : String) : Nat :=
  if s.data = [] then 0 else s.data.count '\n' + 1

/-! ### Concrete fixtures used by the witness theorems -/

/-- A subprocess layer where every git command succeeds. -/
def runAllOk : List String → SubprocResult := fun c =>
  if c = revParseCmd then .ok "feature/x\n"
  else if c = logCmd "main" then .ok "fix a\nadd tests\n"
  else .ok "--- a/f\n+++ b/f\n"

/-- A subprocess layer where `git log` fails (unknown base branch). -/
def runLogFails : List String → SubprocResult := fun c =>
  if c = revParseCmd then .ok "feature/x\n"
  else .fail "fatal: ambiguous argument"

/-- An environment with no variables set. -/
def envNone : String → Option String := fun _ => none

/-- An environment where the API key is set to the empty string. -/
def envEmptyKey : String → Option String := fun _ => some ""

/-- An environment where the API key is set to a non-empty value. -/
def envWithKey : String → Option String := fun _ => some "sk-test"

/-- A completion call that succeeds. -/
def callOk : String → Except String String := fun _ => .ok "generated message"

/-- A completion call that raises. -/
def callBoom : String → Except String String := fun _ => .error "connection reset"

/-- The fixed `GitInfo` example used by the specification. -/
def giSpec : GitInfo := ⟨"feature/x", "fix bug", "--- a\n+++ b\n"⟩

/-- A subprocess layer whose `git log` stdout carries a vertical tab
(0x0B) inside a commit subject — a reachable git output, since `%s`
subjects may contain such control characters. -/
def runVtab : List String → SubprocResult := fun c =>
  if c = revParseCmd then .ok "feature/x\n"
  else if c = logCmd "main" then .ok "fix a\x0bfix b\n"
  else .ok "d"

/-- The `GitInfo` produced by `get_git_info "main" runVtab`. -/
def giVtab : GitInfo := ⟨"feature/x", "fix a\x0bfix b", "d"⟩

/-- A subprocess layer whose `rev-parse` stdout is a branch name with a
trailing no-break space (U+00A0) — legal in a git refname — followed by
the usual newline. -/
def runNbsp : List String → SubprocResult := fun c =>
  if c = revParseCmd then .ok "feat\u00a0\n" else .ok "x"

/-- The `GitInfo` produced by `get_git_info "main" runNbsp`: the
no-break space has been stripped off the branch name. -/
def giNbsp : GitInfo := ⟨"feat", "x", "x"⟩

/-! ### Helper lemmas -/

theorem containsStr_parts (s t p q : String) (h : s = p ++ t ++ q) :
    containsStr s t := by
  subst h
  exact ⟨p.data, q.data, by simp [String.data_append]⟩

theorem head?_dropWhile_false {α : Type} {p : α → Bool} :
    ∀ {l : List α} {x : α}, (l.dropWhile p).head? = some x → p x = false := by
  intro l
  induction l with
  | nil => intro x h; simp [List.dropWhile] at h
  | cons c rest ih =>
    intro x h
    rw [List.dropWhile_cons] at h
    by_cases hc : p c = true
    · rw [if_pos hc] at h; exact ih h
    · rw [if_neg hc] at h
      simp only [List.head?_cons, Option.some.injEq] at h
      subst h
      exact Bool.eq_false_iff.mpr hc

theorem pyStrip_getLast?_ne_newline (s : String) :
    (pyStrip s).data.getLast? ≠ some '\n' := by
  intro h
  have h2 : (((s.data.dropWhile isPySpace).reverse.dropWhile isPySpace)).head? =
      some '\n' := by
    rw [← List.getLast?_reverse]
    exact h
  have h3 := head?_dropWhile_false h2
  exact absurd h3 (by decide)

/-- `str.strip()` of a branch name followed by the trailing newline of
the subprocess stdout gives the name back, provided the name neither
begins nor ends with a Python-whitespace character. -/
theorem pyStrip_edge_clean {name : String}
    (hhead : name.data.head?.all (fun x => !(isPySpace x)) = true)
    (hlast : name.data.getLast?.all (fun x => !(isPySpace x)) = true) :
    pyStrip (name ++ "\n") = name := by
  cases hn : name.data with
  | nil =>
    have hname : name = "" := by
      cases name with
      | mk l => simp only [String.data] at hn; simp [hn]
    subst hname
    decide
  | cons c cs =>
    unfold pyStrip
    have hd : (name ++ "\n").data = name.data ++ ['\n'] := by
      rw [String.data_append]
    have hc : isPySpace c = false := by
      rw [hn] at hhead
      simpa using hhead
    rw [hd, hn, List.cons_append, List.dropWhile_cons, if_neg (by simp [hc])]
    rw [← List.cons_append, List.reverse_append, List.reverse_cons]
    simp only [List.reverse_nil, List.nil_append, List.singleton_append]
    rw [List.dropWhile_cons, if_pos (by decide)]
    cases hr : (c :: cs).reverse with
    | nil => exact absurd hr (by simp)
    | cons x xs =>
      have hx : isPySpace x = false := by
        rw [hn, ← List.head?_reverse, hr] at hlast
        simpa using hlast
      rw [List.dropWhile_cons, if_neg (by simp [hx]), ← hr,
        List.reverse_reverse, ← hn]

/-- Unfolding equation for `splitlinesAux` on a cons cell whose head is
not a carriage return (so the `\r\n` arm cannot apply). -/
theorem splitlinesAux_cons_ne_cr {c : Char} (hc : c ≠ '\r')
    (rest acc : List Char) :
    splitlinesAux (c :: rest) acc =
      if isPyLineBoundary c then acc.reverse :: splitlinesAux rest []
      else splitlinesAux rest (c :: acc) := by
  cases rest with
  | nil => simp [splitlinesAux, hc]
  | cons d rest2 => simp [splitlinesAux, hc]

theorem splitlinesAux_length :
    ∀ (l : List Char) (acc : List Char), l ≠ [] → l.getLast? ≠ some '\n' →
      (∀ c ∈ l, isPyLineBoundary c = true → c = '\n') →
      (splitlinesAux l acc).length = l.count '\n' + 1 := by
  intro l
  induction l with
  | nil => intro acc h; exact absurd rfl h
  | cons c rest ih =>
    intro acc _ hlast honly
    have hcr : ¬ c = '\r' := by
      intro h
      subst h
      have := honly '\r' (List.mem_cons_self _ _) (by decide)
      exact absurd this (by decide)
    rw [splitlinesAux_cons_ne_cr hcr]
    cases rest with
    | nil =>
      have hcn : ¬ c = '\n' := by
        intro hc
        exact hlast (by simp [hc])
      have hbf : isPyLineBoundary c = false := by
        cases hb : isPyLineBoundary c
        · rfl
        · exact absurd (honly c (List.mem_cons_self _ _) hb) hcn
      rw [if_neg (by simp [hbf])]
      simp [splitlinesAux, List.count_cons, hcn]
    | cons d rest2 =>
      have hne : d :: rest2 ≠ [] := by simp
      have hlast2 : (d :: rest2).getLast? ≠ some '\n' := by
        rwa [List.getLast?_cons_cons] at hlast
      have honly2 : ∀ x ∈ d :: rest2, isPyLineBoundary x = true → x = '\n' :=
        fun x hx => honly x (List.mem_cons_of_mem c hx)
      by_cases hcn : c = '\n'
      · subst hcn
        rw [if_pos (by decide)]
        simp only [List.length_cons, ih _ hne hlast2 honly2, List.count_cons]
        simp
      · have hbf : isPyLineBoundary c = false := by
          cases hb : isPyLineBoundary c
          · rfl
          · exact absurd (honly c (List.mem_cons_self _ _) hb) hcn
        rw [if_neg (by simp [hbf])]
        rw [ih _ hne hlast2 honly2]
        simp [List.count_cons, hcn]

theorem commitCount_eq_entry_count (s : String)
    (h : s.data.getLast? ≠ some '\n')
    (honly : ∀ c ∈ s.data, isPyLineBoundary c = true → c = '\n') :
    commitCount s = newlineEntryCount s := by
  unfold commitCount pySplitlines newlineEntryCount
  by_cases hs : s.data = []
  · rw [if_pos hs, hs]
    rfl
  · rw [if_neg hs, List.length_map]
    exact splitlinesAux_length s.data [] hs h honly

/-- Shape of a successful `get_git_info` run: all three subprocess calls
returned normally, the value is built from their stdouts (first two
stripped, diff verbatim), nothing was printed, and exactly the three git
commands were invoked in order. -/
theorem get_git_info_ok_shape {b : String} {run : List String → SubprocResult}
    {gi : GitInfo} (h : (get_git_info b run).info = some gi) :
    ∃ o1 o2 o3, run revParseCmd = .ok o1 ∧ run (logCmd b) = .ok o2 ∧
      run (diffCmd b) = .ok o3 ∧
      get_git_info b run =
        ⟨some ⟨pyStrip o1, pyStrip o2, o3⟩, [],
         [revParseCmd, logCmd b, diffCmd b]⟩ := by
  unfold get_git_info at h ⊢
  cases h1 : run revParseCmd with
  | fail e => rw [h1] at h; simp at h
  | notFound => rw [h1] at h; simp at h
  | ok o1 =>
    rw [h1] at h
    cases h2 : run (logCmd b) with
    | fail e => rw [h2] at h; simp at h
    | notFound => rw [h2] at h; simp at h
    | ok o2 =>
      rw [h2] at h
      cases h3 : run (diffCmd b) with
      | fail e => rw [h3] at h; simp at h
      | notFound => rw [h3] at h; simp at h
      | ok o3 =>
        exact ⟨o1, o2, o3, rfl, rfl, rfl, rfl⟩

/-- A shared driver lemma: whenever `pr_main` completes a run, the
subprocess commands it invoked are exactly those of `get_git_info` on the
parsed base branch. -/
theorem pr_main_invoked_eq (argv : List String) (base : String)
    (run : List String → SubprocResult) (osEnv : String → Option String)
    (call : String → Except String String) (r : MainResult)
    (hargv : parseBaseBranch argv = some base)
    (h : pr_main argv run osEnv call = some r) :
    r.invoked = (get_git_info base run).invoked := by
  simp only [pr_main, hargv] at h
  cases hg : (get_git_info base run).info with
  | none =>
    rw [hg] at h
    simp only [Option.some.injEq] at h
    rw [← h]
  | some gi =>
    rw [hg] at h
    simp only [Option.some.injEq] at h
    rw [← h]

/-! ### Claims -/

/-- C2: for every `GitInfo` and every error raised by the chat-completion
call, `generate_pr_message` catches it and returns a string that equals
the fixed failure message around the stringified exception, and that
string contains the recognizable call-failed marker; no exception
propagates (the function returns normally). -/
theorem c2_call_error_caught (gi : GitInfo) (osEnv : String → Option String)
    (call : String → Except String String) (e : String)
    (hkey : pyTruthy (osEnv apiKeyVar) = true)
    (hcall : call (composePrompt gi) = .error e) :
    generate_pr_message gi osEnv call = ⟨apiErrorMsg e, 1⟩ ∧
    containsStr (generate_pr_message gi osEnv call).message callFailedMarker := by
  have hres : generate_pr_message gi osEnv call = ⟨apiErrorMsg e, 1⟩ := by
    simp [generate_pr_message, hkey, hcall]
  refine ⟨hres, ?_⟩
  rw [hres]
  apply containsStr_parts _ _ "Gemini " (": " ++ e)
  rw [← String.append_assoc]
  have hsplit : ("Gemini " ++ callFailedMarker) ++ ": " =
      "Gemini API 호출 중 오류가 발생했습니다: " := by decide
  rw [hsplit]
  rfl

/-- Witness for C2 at a concrete failing call. -/
theorem c2_witness :
    generate_pr_message giSpec envWithKey callBoom =
      ⟨apiErrorMsg "connection reset", 1⟩ ∧
    containsStr (generate_pr_message giSpec envWithKey callBoom).message
      callFailedMarker :=
  c2_call_error_caught giSpec envWithKey callBoom "connection reset" rfl rfl

/-- C3: if the authentication environment variable is unset,
`generate_pr_message` returns the missing-credential message (which
contains the recognizable marker) and performs zero network calls. -/
theorem c3_missing_credential (gi : GitInfo) (osEnv : String → Option String)
    (call : String → Except String String)
    (h : osEnv apiKeyVar = none) :
    generate_pr_message gi osEnv call = ⟨missingKeyMsg, 0⟩ ∧
    containsStr missingKeyMsg missingKeyMarker := by
  constructor
  · simp [generate_pr_message, h, pyTruthy]
  · apply containsStr_parts _ _ "오류: GEMINI_API_KEY가 " ". .env 파일을 확인해주세요."
    decide

/-- Witness for C3 at a concrete empty environment. -/
theorem c3_witness :
    generate_pr_message giSpec envNone callOk = ⟨missingKeyMsg, 0⟩ ∧
    containsStr missingKeyMsg missingKeyMarker :=
  c3_missing_credential giSpec envNone callOk rfl

/-- C9: the credential guard reads `OPENAI_API_KEY` (and nothing else of
the environment), yet the missing-credential message names
`GEMINI_API_KEY`, and the call-failure message says "Gemini API" even
though the client called is OpenAI. -/
theorem c9_credential_name_mismatch :
    apiKeyVar = "OPENAI_API_KEY" ∧
    (∀ (gi : GitInfo) (osEnv : String → Option String)
        (call : String → Except String String),
      osEnv "OPENAI_API_KEY" = none →
      (generate_pr_message gi osEnv call).message =
        "오류: GEMINI_API_KEY가 설정되지 않았습니다. .env 파일을 확인해주세요.") ∧
    (∀ (gi : GitInfo) (osEnv osEnv2 : String → Option String)
        (call : String → Except String String),
      osEnv apiKeyVar = osEnv2 apiKeyVar →
      generate_pr_message gi osEnv call = generate_pr_message gi osEnv2 call) ∧
    (∀ e, containsStr (apiErrorMsg e) "Gemini API") := by
  refine ⟨rfl, ?_, ?_, ?_⟩
  · intro gi osEnv call h
    have h2 : osEnv apiKeyVar = none := h
    simp [generate_pr_message, h2, pyTruthy, missingKeyMsg]
  · intro gi osEnv osEnv2 call h
    unfold generate_pr_message
    rw [h]
  · intro e
    apply containsStr_parts _ _ "" (" 호출 중 오류가 발생했습니다: " ++ e)
    rw [← String.append_assoc]
    have hsplit : ("" ++ "Gemini API") ++ " 호출 중 오류가 발생했습니다: " =
        "Gemini API 호출 중 오류가 발생했습니다: " := by decide
    rw [hsplit]
    rfl

/-- Witness for C9 at a concrete empty environment. -/
theorem c9_witness :
    (generate_pr_message giSpec envNone callOk).message =
      "오류: GEMINI_API_KEY가 설정되지 않았습니다. .env 파일을 확인해주세요." :=
  c9_credential_name_mismatch.2.1 giSpec envNone callOk rfl

/-- C10: an API key set to the empty string is treated exactly like an
unset one (the guard tests Python falsiness): the missing-credential
message is returned, no call is made, and the result coincides with the
unset-environment result. -/
theorem c10_empty_string_key (gi : GitInfo) (osEnv : String → Option String)
    (call : String → Except String String)
    (h : osEnv apiKeyVar = some "") :
    generate_pr_message gi osEnv call = ⟨missingKeyMsg, 0⟩ ∧
    generate_pr_message gi osEnv call =
      generate_pr_message gi (fun _ => none) call := by
  constructor <;> simp [generate_pr_message, h, pyTruthy]

/-- Witness for C10 at a concrete empty-string key. -/
theorem c10_witness :
    generate_pr_message giSpec envEmptyKey callOk = ⟨missingKeyMsg, 0⟩ ∧
    generate_pr_message giSpec envEmptyKey callOk =
      generate_pr_message giSpec (fun _ => none) callOk :=
  c10_empty_string_key giSpec envEmptyKey callOk rfl

/-- C5: for every `GitInfo` the composed prompt contains the branch name,
the commit logs and the diff verbatim as substrings, plus the three fixed
section headers; in particular this holds at the specification's fixed
example `GitInfo`.  (`composePrompt` is a pure function of `gi`, so
composition is deterministic by construction.) -/
theorem c5_prompt_containment (gi : GitInfo) :
    containsStr (composePrompt gi) gi.branch_name ∧
    containsStr (composePrompt gi) gi.commit_logs ∧
    containsStr (composePrompt gi) gi.code_diff ∧
    containsStr (composePrompt gi) headerTitle ∧
    containsStr (composePrompt gi) headerDescription ∧
    containsStr (composePrompt gi) headerKeyChanges ∧
    containsStr (composePrompt giSpec) "feature/x" ∧
    containsStr (composePrompt giSpec) "fix bug" ∧
    containsStr (composePrompt giSpec) "--- a\n+++ b\n" := by
  have hb : ∀ g : GitInfo, containsStr (composePrompt g) g.branch_name := by
    intro g
    exact containsStr_parts _ _
      (promptIntro ++ headerTitle ++ promptAfterTitle ++ headerDescription ++
        promptAfterDescription ++ headerKeyChanges ++ promptBeforeBranch)
      (promptBeforeLogs ++ g.commit_logs ++ promptBeforeDiff ++
        g.code_diff ++ promptSuffix)
      (by simp [composePrompt, String.append_assoc])
  have hl : ∀ g : GitInfo, containsStr (composePrompt g) g.commit_logs := by
    intro g
    exact containsStr_parts _ _
      (promptIntro ++ headerTitle ++ promptAfterTitle ++ headerDescription ++
        promptAfterDescription ++ headerKeyChanges ++ promptBeforeBranch ++
        g.branch_name ++ promptBeforeLogs)
      (promptBeforeDiff ++ g.code_diff ++ promptSuffix)
      (by simp [composePrompt, String.append_assoc])
  have hd : ∀ g : GitInfo, containsStr (composePrompt g) g.code_diff := by
    intro g
    exact containsStr_parts _ _
      (promptIntro ++ headerTitle ++ promptAfterTitle ++ headerDescription ++
        promptAfterDescription ++ headerKeyChanges ++ promptBeforeBranch ++
        g.branch_name ++ promptBeforeLogs ++ g.commit_logs ++ promptBeforeDiff)
      promptSuffix
      (by simp [composePrompt, String.append_assoc])
  refine ⟨hb gi, hl gi, hd gi, ?_, ?_, ?_, hb giSpec, hl giSpec, hd giSpec⟩
  · exact containsStr_parts _ _ promptIntro
      (promptAfterTitle ++ headerDescription ++ promptAfterDescription ++
        headerKeyChanges ++ promptBeforeBranch ++ gi.branch_name ++
        promptBeforeLogs ++ gi.commit_logs ++ promptBeforeDiff ++
        gi.code_diff ++ promptSuffix)
      (by simp [composePrompt, String.append_assoc])
  · exact containsStr_parts _ _
      (promptIntro ++ headerTitle ++ promptAfterTitle)
      (promptAfterDescription ++ headerKeyChanges ++ promptBeforeBranch ++
        gi.branch_name ++ promptBeforeLogs ++ gi.commit_logs ++
        promptBeforeDiff ++ gi.code_diff ++ promptSuffix)
      (by simp [composePrompt, String.append_assoc])
  · exact containsStr_parts _ _
      (promptIntro ++ headerTitle ++ promptAfterTitle ++ headerDescription ++
        promptAfterDescription)
      (promptBeforeBranch ++ gi.branch_name ++ promptBeforeLogs ++
        gi.commit_logs ++ promptBeforeDiff ++ gi.code_diff ++ promptSuffix)
      (by simp [composePrompt, String.append_assoc])

/-- C1: if the Repository Inspector fails (any command non-zero or git
missing), the driver prints only the banner, the progress line and the
inspector's own error output, makes zero completion calls, and falls
through to normal termination with exit code 0. -/
theorem c1_inspector_failure_halts (argv : List String) (base : String)
    (run : List String → SubprocResult) (osEnv : String → Option String)
    (call : String → Except String String)
    (hargv : parseBaseBranch argv = some base)
    (hfail : (get_git_info base run).info = none) :
    pr_main argv run osEnv call =
      some ⟨[bannerLine base, collectMsg] ++ (get_git_info base run).printed,
            (get_git_info base run).invoked, 0, 0⟩ := by
  simp only [pr_main, hargv]
  rw [hfail]

/-- Witness for C1: the base branch does not exist, so `git log` fails. -/
theorem c1_witness :
    pr_main [] runLogFails envWithKey callOk =
      some ⟨[bannerLine "main", collectMsg,
             gitCmdErrorMsg "fatal: ambiguous argument"],
            [revParseCmd, logCmd "main"], 0, 0⟩ :=
  c1_inspector_failure_halts [] "main" runLogFails envWithKey callOk rfl rfl

/-- C4 (amended): for every `GitInfo` produced by a successful inspector
run, the driver prints the commit-count line for its `commit_logs`; the
count it shows (`commitCount`, the `len(...splitlines())` of the source)
equals the number of newline-separated entries of `commit_logs` provided
the logs contain no line-boundary character other than newline (Python
`splitlines` also cuts at VT, FF, FS, GS, RS, NEL, U+2028 and U+2029);
and the empty string reports 0. -/
theorem c4_commit_count (argv : List String) (b : String)
    (run : List String → SubprocResult) (osEnv : String → Option String)
    (call : String → Except String String) (gi : GitInfo)
    (hargv : parseBaseBranch argv = some b)
    (h : (get_git_info b run).info = some gi)
    (hnl : ∀ c ∈ gi.commit_logs.data, isPyLineBoundary c = true → c = '\n') :
    (∃ r, pr_main argv run osEnv call = some r ∧
      commitCountLine gi.commit_logs ∈ r.printed) ∧
    commitCount gi.commit_logs = newlineEntryCount gi.commit_logs ∧
    (gi.commit_logs = "" → commitCount gi.commit_logs = 0) := by
  obtain ⟨o1, o2, o3, h1, h2, h3, hshape⟩ := get_git_info_ok_shape h
  rw [hshape] at h
  simp only [Option.some.injEq] at h
  subst h
  have hmain : pr_main argv run osEnv call =
      some ⟨[bannerLine b, collectMsg] ++ [] ++
              [branchLine (pyStrip o1), commitCountLine (pyStrip o2),
               apiAnnounceMsg, "\n" ++ sepLine, resultBanner, sepLine,
               (generate_pr_message ⟨pyStrip o1, pyStrip o2, o3⟩ osEnv
                 call).message, sepLine],
            [revParseCmd, logCmd b, diffCmd b],
            (generate_pr_message ⟨pyStrip o1, pyStrip o2, o3⟩ osEnv
              call).apiCalls, 0⟩ := by
    simp only [pr_main, hargv]
    rw [hshape]
  refine ⟨⟨_, hmain, ?_⟩, ?_, ?_⟩
  · simp
  · exact commitCount_eq_entry_count _ (pyStrip_getLast?_ne_newline o2) hnl
  · intro h0
    rw [h0]
    rfl

/-- Counterexample for C4 as originally stated: a commit subject
carrying a vertical tab (0x0B) reaches `commit_logs` unchanged, and the
program prints a count of 2 while the string has a single
newline-separated entry. -/
theorem c4_counterexample :
    (get_git_info "main" runVtab).info = some giVtab ∧
    giVtab.commit_logs = "fix a\x0bfix b" ∧
    commitCount giVtab.commit_logs = 2 ∧
    newlineEntryCount giVtab.commit_logs = 1 ∧
    commitCount giVtab.commit_logs ≠ newlineEntryCount giVtab.commit_logs := by
  refine ⟨by decide, rfl, by decide, by decide, by decide⟩

/-- Witness for C4 at a successful concrete run with two commits. -/
theorem c4_witness :
    (∃ r, pr_main [] runAllOk envNone callOk = some r ∧
      commitCountLine (⟨"feature/x", "fix a\nadd tests",
        "--- a/f\n+++ b/f\n"⟩ : GitInfo).commit_logs ∈ r.printed) ∧
    commitCount (⟨"feature/x", "fix a\nadd tests",
        "--- a/f\n+++ b/f\n"⟩ : GitInfo).commit_logs =
      newlineEntryCount (⟨"feature/x", "fix a\nadd tests",
        "--- a/f\n+++ b/f\n"⟩ : GitInfo).commit_logs ∧
    ((⟨"feature/x", "fix a\nadd tests",
        "--- a/f\n+++ b/f\n"⟩ : GitInfo).commit_logs = "" →
      commitCount (⟨"feature/x", "fix a\nadd tests",
        "--- a/f\n+++ b/f\n"⟩ : GitInfo).commit_logs = 0) :=
  c4_commit_count [] "main" runAllOk envNone callOk
    ⟨"feature/x", "fix a\nadd tests", "--- a/f\n+++ b/f\n"⟩ rfl rfl
    (by decide)

/-- C6: a completed Repository Inspector run invokes exactly three git
commands, in order: the abbreviated-ref of HEAD, the one-line commit
subjects for the two-dot range `base..HEAD`, and the three-dot
merge-base diff `base...HEAD`. -/
theorem c6_exact_three_commands (b : String)
    (run : List String → SubprocResult)
    (h : (get_git_info b run).info.isSome = true) :
    (get_git_info b run).invoked = [revParseCmd, logCmd b, diffCmd b] ∧
    (∀ run2, (get_git_info b run2).invoked <+:
      [revParseCmd, logCmd b, diffCmd b]) ∧
    revParseCmd = ["git", "rev-parse", "--abbrev-ref", "HEAD"] ∧
    logCmd b = ["git", "log", b ++ "..HEAD", "--oneline",
      "--pretty=format:%s"] ∧
    diffCmd b = ["git", "diff", b ++ "...HEAD"] := by
  obtain ⟨gi, hgi⟩ := Option.isSome_iff_exists.mp h
  obtain ⟨o1, o2, o3, _, _, _, hshape⟩ := get_git_info_ok_shape hgi
  refine ⟨by rw [hshape], ?_, rfl, rfl, rfl⟩
  intro run2
  unfold get_git_info
  cases run2 revParseCmd with
  | fail e => exact ⟨[logCmd b, diffCmd b], rfl⟩
  | notFound => exact ⟨[logCmd b, diffCmd b], rfl⟩
  | ok o1 =>
    cases run2 (logCmd b) with
    | fail e => exact ⟨[diffCmd b], rfl⟩
    | notFound => exact ⟨[diffCmd b], rfl⟩
    | ok o2 =>
      cases run2 (diffCmd b) with
      | fail e => exact ⟨[], rfl⟩
      | notFound => exact ⟨[], rfl⟩
      | ok o3 => exact ⟨[], rfl⟩

/-- Witness for C6 at a successful concrete run. -/
theorem c6_witness :
    (get_git_info "main" runAllOk).invoked =
      [revParseCmd, logCmd "main", diffCmd "main"] ∧
    (∀ run2, (get_git_info "main" run2).invoked <+:
      [revParseCmd, logCmd "main", diffCmd "main"]) ∧
    revParseCmd = ["git", "rev-parse", "--abbrev-ref", "HEAD"] ∧
    logCmd "main" = ["git", "log", "main" ++ "..HEAD", "--oneline",
      "--pretty=format:%s"] ∧
    diffCmd "main" = ["git", "diff", "main" ++ "...HEAD"] :=
  c6_exact_three_commands "main" runAllOk rfl

/-- C7 (amended): on a successful run whose `rev-parse` stdout is the
checked-out branch name followed by the trailing newline, `branch_name`
equals that name exactly, provided the name neither begins nor ends with
a Python-whitespace character (the `.strip()` would also remove such
edge characters from the name itself); and two runs over subprocess
layers returning the same outputs yield equal `GitRunResult`s
(determinism). -/
theorem c7_branch_name_determinism (b : String)
    (run run2 : List String → SubprocResult) (name : String) (gi : GitInfo)
    (hagree : ∀ c, run c = run2 c)
    (hrev : run revParseCmd = .ok (name ++ "\n"))
    (hhead : name.data.head?.all (fun x => !(isPySpace x)) = true)
    (hlast : name.data.getLast?.all (fun x => !(isPySpace x)) = true)
    (hsome : (get_git_info b run).info = some gi) :
    gi.branch_name = name ∧ get_git_info b run = get_git_info b run2 := by
  obtain ⟨o1, o2, o3, h1, h2, h3, hshape⟩ := get_git_info_ok_shape hsome
  have ho1 : o1 = name ++ "\n" := by
    rw [h1] at hrev
    exact SubprocResult.ok.inj hrev
  constructor
  · rw [hshape] at hsome
    simp only [Option.some.injEq] at hsome
    rw [← hsome, ho1]
    exact pyStrip_edge_clean hhead hlast
  · unfold get_git_info
    simp only [hagree]

/-- Counterexample for C7 as originally stated: a legal git branch name
ending in a no-break space (U+00A0) is stripped, so `branch_name`
differs from the checked-out branch name. -/
theorem c7_counterexample :
    runNbsp revParseCmd = .ok ("feat\u00a0" ++ "\n") ∧
    (get_git_info "main" runNbsp).info = some giNbsp ∧
    giNbsp.branch_name ≠ "feat\u00a0" := by
  refine ⟨by decide, by decide, by decide⟩

/-- Witness for C7 at a successful concrete run. -/
theorem c7_witness :
    (⟨"feature/x", "fix a\nadd tests", "--- a/f\n+++ b/f\n"⟩ :
      GitInfo).branch_name = "feature/x" ∧
    get_git_info "main" runAllOk = get_git_info "main" runAllOk :=
  c7_branch_name_determinism "main" runAllOk runAllOk "feature/x"
    ⟨"feature/x", "fix a\nadd tests", "--- a/f\n+++ b/f\n"⟩
    (fun _ => rfl) rfl (by decide) (by decide) rfl

/-- C8: the CLI accepts zero or one positional argument — zero
positionals parse to base branch `"main"` (also when only the `--`
separator is given), one positional parses to itself (including after
`--` or before a trailing `--`, and including dash tokens argparse takes
as positionals, such as `-` and `-1`), two positionals are rejected —
and every completed driver run issues its git commands for exactly the
parsed base branch. -/
theorem c8_argument_surface :
    parseBaseBranch [] = some "main" ∧
    parseBaseBranch ["--"] = some "main" ∧
    (∀ b : String, isOptionLike b = false → parseBaseBranch [b] = some b) ∧
    (∀ b : String, parseBaseBranch ["--", b] = some b) ∧
    (∀ b : String, isOptionLike b = false →
      parseBaseBranch [b, "--"] = some b) ∧
    parseBaseBranch ["-"] = some "-" ∧
    parseBaseBranch ["-1"] = some "-1" ∧
    (∀ x y : String, isOptionLike x = false → isOptionLike y = false →
      parseBaseBranch [x, y] = none) ∧
    (∀ run osEnv call r, pr_main [] run osEnv call = some r →
      r.invoked = (get_git_info "main" run).invoked) ∧
    (∀ b run osEnv call r, parseBaseBranch [b] = some b →
      pr_main [b] run osEnv call = some r →
      r.invoked = (get_git_info b run).invoked) := by
  have hdd : ∀ b : String, isOptionLike b = false → b ≠ "--" := by
    intro b hb hbd
    rw [hbd] at hb
    exact absurd hb (by decide)
  refine ⟨rfl, by decide, ?_, ?_, ?_, by decide, by decide, ?_, ?_, ?_⟩
  · intro b hb
    simp [parseBaseBranch, splitAtDashDash, hdd b hb, hb]
  · intro b
    simp [parseBaseBranch, splitAtDashDash]
  · intro b hb
    simp [parseBaseBranch, splitAtDashDash, hdd b hb, hb]
  · intro x y hx hy
    simp [parseBaseBranch, splitAtDashDash, hdd x hx, hdd y hy, hx, hy]
  · intro run osEnv call r h
    exact pr_main_invoked_eq [] "main" run osEnv call r rfl h
  · intro b run osEnv call r hb h
    exact pr_main_invoked_eq [b] b run osEnv call r hb h

/-- Witness for C8 at a concrete one-argument invocation. -/
theorem c8_witness : parseBaseBranch ["develop"] = some "develop" :=
  c8_argument_surface.2.2.1 "develop" (by decide)

end PrTool
